import Mathlib

/-!
Shallow embedding of the CRUD-AdminBackend repository (TypeScript/Express/
Sequelize over MySQL) for checking its natural-language specification.

Embedded sources:
- src/utility/introspection.ts    (metadata cache, widget mapping, primary key)
- src/services/genericService.ts  (list / get / create / update / delete)
- src/controllers/genericController.ts (pagination dialects, search filter)
- src/controllers/tableConfigController.ts (configuration soft-delete / upsert)

Modelling conventions:
- JS values appearing in request bodies / rows are modelled by `Value`
  (string, integer, boolean, null); a missing key (JS `undefined`) is
  `Option.none` at lookup sites.
- SQL rows are association lists from column name to `Value`; a column not
  present in the list reads as SQL NULL.
- SQL `=` / `!=` on a bound parameter are modelled structurally with NULL
  never comparing equal (three-valued logic collapsed to `false`), which is
  faithful for the same-typed comparisons the service performs.
- Driver faults are injected through two flags on the database state
  (`cfgFail`: any query against table_configurations raises; `insertFail`:
  the INSERT statement raises), modelling an underlying driver error.
-/

/-- A runtime value: JSON body field or SQL cell. -/
inductive Value where
  | str (s : String)
  | int (n : Int)
  | bool (b : Bool)
  | null
deriving DecidableEq, Repr

/-- JS truthiness of a `Value` (null, false, 0 and "" are falsy). -/
def Value.truthy : Value → Bool
  | .null => false
  | .bool b => b
  | .int n => n != 0
  | .str s => s != ""

/-- JS `String(v)` conversion. -/
def Value.jsString : Value → String
  | .str s => s
  | .int n => toString n
  | .bool b => if b then "true" else "false"
  | .null => "null"

/-- Error taxonomy of the service layer.  The source throws plain `Error`
objects distinguished only by message; the constructors record the kind the
message encodes (`conflict` messages are exactly those containing the
substring "already exists", which the catch blocks test for). -/
inductive Err where
  | invalidTable
  | notFound (msg : String)
  | validation (msg : String)
  | conflict (msg : String)
  | driver (msg : String)
deriving DecidableEq, Repr

/-- Models `error.message.includes('already exists')` in the catch blocks of
`create` / `update`: only `conflict` messages contain that substring. -/
def Err.isConflict : Err → Bool
  | .conflict _ => true
  | _ => false

/-- A database row / request body: association list column ↦ value. -/
abbrev Row := List (String × Value)

/-- JS object property lookup: `none` models `undefined`. -/
def lookupRow (r : Row) (c : String) : Option Value :=
  (r.find? (fun kv => kv.1 == c)).map (fun kv => kv.2)

/-- SQL cell read: a column missing from the association list is NULL. -/
def rowVal (r : Row) (c : String) : Value :=
  (lookupRow r c).getD Value.null

/-- SQL `col = :param` with a bound value; NULL never compares equal. -/
def sqlEq (a b : Value) : Bool :=
  match a, b with
  | .null, _ => false
  | _, .null => false
  | a, b => a == b

/-- SQL `col != :param`; NULL yields unknown, collapsed to false. -/
def sqlNe (a b : Value) : Bool :=
  match a, b with
  | .null, _ => false
  | _, .null => false
  | a, b => a != b

/-- A row of INFORMATION_SCHEMA.COLUMNS as selected by introspection.ts
(lines 53-63): name, DATA_TYPE, IS_NULLABLE ('YES'/'NO'), COLUMN_KEY,
EXTRA, CHARACTER_MAXIMUM_LENGTH. -/
structure CatColumn where
  name : String
  ctype : String
  isNullable : String
  key : String
  extra : String
  maxLength : Option Nat
deriving DecidableEq, Repr

/-- A catalog table: its name and its INFORMATION_SCHEMA columns. -/
structure TableDef where
  name : String
  columns : List CatColumn
deriving DecidableEq, Repr

/-- A row of the table_configurations table (already in parsed form: the
JSON-serialized array columns are stored here as their parsed meaning,
matching the Array.isArray / JSON.parse tolerance at every read site). -/
structure ConfigRow where
  id : Nat
  table_name : String
  column_order : Option (List String)
  unique_constraints : Option (List String)
  sortable_columns : Option (List String)
  searchable_columns : Option (List String)
  filterable_columns : Option (List String)
  deleted_at : Option Nat
  updated_at : Option Nat
deriving DecidableEq, Repr

/-- The database state.  `cfgFail` / `insertFail` inject driver errors on the
table_configurations queries resp. the INSERT statement. -/
structure DB where
  catalog : List TableDef
  rows : List (String × List Row)
  configs : List ConfigRow
  cfgFail : Bool
  insertFail : Bool
deriving DecidableEq, Repr

/-- Rows currently stored in a table (empty for an unknown name). -/
def rowsOf (db : DB) (t : String) : List Row :=
  ((db.rows.find? (fun kv => kv.1 == t)).map (fun kv => kv.2)).getD []

/-- introspection.ts `checkTableExists` (lines 26-38): membership of the name
in INFORMATION_SCHEMA.TABLES for the configured schema. -/
def checkTableExists (db : DB) (t : String) : Bool :=
  db.catalog.any (fun td => td.name == t)

/-- The INFORMATION_SCHEMA.COLUMNS query of introspection.ts (lines 53-68):
columns of the named table, empty result for an unknown table. -/
def catalogColumns (db : DB) (t : String) : List CatColumn :=
  match db.catalog.find? (fun td => td.name == t) with
  | some td => td.columns
  | none => []

/-- JS `haystack.includes(needle)` on strings (substring test). -/
def strIncludes (s pat : String) : Bool :=
  let p := pat.toList
  let rec go : List Char → Bool
    | [] => p.isPrefixOf []
    | c :: cs => p.isPrefixOf (c :: cs) || go cs
  go s.toList

/-- introspection.ts `mapTypeToWidget` (lines 10-17). -/
def mapTypeToWidget (dataType : String) : String :=
  let t := dataType.toLower
  if strIncludes t "tinyint" || strIncludes t "boolean" then "switch"
  else if strIncludes t "int" || strIncludes t "decimal" || strIncludes t "float" || strIncludes t "double" then "number"
  else if strIncludes t "text" || strIncludes t "json" then "textarea"
  else if strIncludes t "date" || strIncludes t "timestamp" || strIncludes t "time" then "date"
  else "text"

/-- JS `word.charAt(0).toUpperCase() + word.slice(1)`. -/
def capitalizeWord (w : String) : String :=
  match w.toList with
  | [] => ""
  | c :: cs => String.mk (c.toUpper :: cs)

/-- introspection.ts `formatLabel` (lines 19-24): split on '_', capitalize
each word, join with spaces. -/
def formatLabel (name : String) : String :=
  String.intercalate " " ((name.splitOn "_").map capitalizeWord)

/-- UI hint attached to a column descriptor. -/
structure UIInfo where
  widget : String
  label : String
deriving DecidableEq, Repr

/-- Column descriptor of the Table Metadata (introspection.ts lines 78-89). -/
structure ColumnMeta where
  name : String
  ctype : String
  nullable : Bool
  maxLength : Option Nat
  isPrimaryKey : Bool
  isAutoIncrement : Bool
  ui : UIInfo
deriving DecidableEq, Repr

/-- Table Metadata (introspection.ts lines 91-97). -/
structure TableMeta where
  table : String
  label : String
  primaryKey : String
  columns : List ColumnMeta
deriving DecidableEq, Repr

/-- The metadata computation of `getTableMetadata` once the catalog columns
are in hand (introspection.ts lines 70-97): primary key is the first column
with COLUMN_KEY = 'PRI', defaulting to 'id'; each catalog column is mapped
to a descriptor.  The `relations` field is always empty and omitted. -/
def metaOfTable (t : String) (cols : List CatColumn) : TableMeta :=
  let primaryKey :=
    match cols.find? (fun c => c.key == "PRI") with
    | some c => c.name
    | none => "id"
  { table := t
    label := formatLabel t
    primaryKey := primaryKey
    columns := cols.map (fun c =>
      { name := c.name
        ctype := c.ctype
        nullable := c.isNullable == "YES"
        maxLength := c.maxLength
        isPrimaryKey := c.key == "PRI"
        isAutoIncrement := strIncludes c.extra "auto_increment"
        ui := { widget := mapTypeToWidget c.ctype, label := formatLabel c.name } }) }

/-- The process-wide metadata cache (`metadataCache` in introspection.ts). -/
abbrev MetaCache := List (String × TableMeta)

/-- `metadataCache[tableName]` (a metadata object is always truthy). -/
def lookupCache (c : MetaCache) (t : String) : Option TableMeta :=
  (c.find? (fun kv => kv.1 == t)).map (fun kv => kv.2)

/-- introspection.ts `getTableMetadata` (lines 40-101): the cache is
consulted FIRST (lines 41-43); only on a miss is the existence check run
(lines 45-48, throwing the not-found error), after which the metadata is
computed and stored in the cache. -/
def getTableMetadata (cache : MetaCache) (db : DB) (t : String) :
    Except Err (TableMeta × MetaCache) :=
  match lookupCache cache t with
  | some m => .ok (m, cache)
  | none =>
    if checkTableExists db t then
      let m := metaOfTable t (catalogColumns db t)
      .ok (m, cache ++ [(t, m)])
    else
      .error (Err.notFound ("Table '" ++ t ++ "' does not exist"))

/-- introspection.ts `clearMetadataCache` (lines 6-8). -/
def clearMetadataCache (_cache : MetaCache) : MetaCache := []

/-- A filter value as passed to `GenericService.list`: either missing
(`undefined`), an ordinary scalar, or the `_search` object the controller
installs (`{columns, query}`). -/
inductive FilterVal where
  | undef
  | val (v : Value)
  | search (columns : List String) (query : String)
deriving DecidableEq, Repr

/-- The `filters` object, as an association list in JS key-insertion order. -/
abbrev Filters := List (String × FilterVal)

/-- The skip test of genericService.ts line 17:
`filters[key] !== undefined && filters[key] !== ''` fails exactly for
`undefined` and the empty string (strict comparison). -/
def filterEmpty : FilterVal → Bool
  | .undef => true
  | .val (.str s) => s == ""
  | _ => false

/-- The value bound for an ordinary equality filter: a `_search`-shaped
object reaching the else-branch would be bound after JS string coercion. -/
def paramVal : FilterVal → Value
  | .val v => v
  | .search _ _ => .str "[object Object]"
  | .undef => .null

/-- A structured WHERE predicate as pushed onto `whereClauses`
(genericService.ts lines 16-35): an equality against a bound parameter, or
the parenthesized OR of per-column LIKE tests for `_search`. -/
inductive Clause where
  | eq (col : String) (v : Value)
  | search (cols : List String) (query : String)
deriving DecidableEq, Repr

/-- One step of the `Object.keys(filters).forEach` loop of
genericService.ts lines 16-35. -/
def clauseStep (acc : List Clause) (kv : String × FilterVal) : List Clause :=
  if filterEmpty kv.2 then acc
  else
    match kv.1 == "_search", kv.2 with
    | true, .search cols q =>
      if decide (cols.length > 0) && (q != "") then acc ++ [Clause.search cols q]
      else acc
    | _, fv => acc ++ [Clause.eq kv.1 (paramVal fv)]

/-- The WHERE-clause list built by the forEach loop, in key order. -/
def buildClauses (filters : Filters) : List Clause :=
  filters.foldl clauseStep []

/-- SQL text of one clause, with its parameter placeholders
(`:filter_key`, `:search_idx`). -/
def clauseSQL : Clause → String
  | .eq col _ => col ++ " = :filter_" ++ col
  | .search cols _ =>
    "(" ++ String.intercalate " OR "
      (cols.enum.map (fun p => p.2 ++ " LIKE :search_" ++ toString p.1)) ++ ")"

/-- The replacements contributed by one clause. -/
def clauseRepl : Clause → List (String × Value)
  | .eq col v => [("filter_" ++ col, v)]
  | .search cols q =>
    cols.enum.map (fun p => ("search_" ++ toString p.1, Value.str ("%" ++ q ++ "%")))

/-- Replacements contributed by the whole clause list. -/
def clausesRepl (cs : List Clause) : List (String × Value) :=
  (cs.map clauseRepl).flatten

/-- genericService.ts line 37: WHERE keyword plus AND-joined clauses, empty
string when no clause was pushed. -/
def whereSQL (cs : List Clause) : String :=
  if cs.isEmpty then ""
  else "WHERE " ++ String.intercalate " AND " (cs.map clauseSQL)

/-- SQL `col LIKE '%query%'`: substring match on the cell rendered as text,
NULL never matches. -/
def sqlLike (v : Value) (q : String) : Bool :=
  match v with
  | .null => false
  | v => strIncludes v.jsString q

/-- Truth of one WHERE clause at a row. -/
def rowMatchesClause (r : Row) : Clause → Bool
  | .eq col v => sqlEq (rowVal r col) v
  | .search cols q => cols.any (fun c => sqlLike (rowVal r c) q)

/-- Truth of the AND-joined WHERE clause list at a row. -/
def rowMatches (r : Row) (cs : List Clause) : Bool :=
  cs.all (rowMatchesClause r)

/-- A database collation order on values, for ORDER BY (NULLs first, then
booleans, numbers, strings). -/
def valLe (a b : Value) : Bool :=
  let rank : Value → Nat
    | .null => 0
    | .bool _ => 1
    | .int _ => 2
    | .str _ => 3
  match a, b with
  | .bool x, .bool y => !x || y
  | .int x, .int y => x ≤ y
  | .str x, .str y => x ≤ y
  | a, b => rank a ≤ rank b

/-- Row comparison on the ORDER BY column. -/
def rowLe (col : String) (a b : Row) : Bool :=
  valLe (rowVal a col) (rowVal b col)

/-- Insertion into a sorted list (executable model of the engine's sort). -/
def insertSorted (le : Row → Row → Bool) (x : Row) : List Row → List Row
  | [] => [x]
  | y :: ys => if le x y then x :: y :: ys else y :: insertSorted le x ys

/-- Insertion sort: the ORDER BY evaluation. -/
def sortRows (le : Row → Row → Bool) : List Row → List Row
  | [] => []
  | x :: xs => insertSorted le x (sortRows le xs)

/-- genericService.ts lines 40-44: ORDER BY only when both `sortBy` and
`sortOrder` are truthy; direction is DESC exactly when the upper-cased
order string equals "DESC". -/
def applySort (rows : List Row) (sortBy sortOrder : Option String) : List Row :=
  match sortBy, sortOrder with
  | some sb, some so =>
    if sb != "" && so != "" then
      if so.toUpper == "DESC" then sortRows (fun a b => rowLe sb b a) rows
      else sortRows (rowLe sb) rows
    else rows
  | _, _ => rows

/-- The offset computation of genericService.ts line 10. -/
def listOffset (page limit : Int) : Int :=
  (page - 1) * limit

/-- Result shape of `list`: the page of rows and the COUNT(*) total. -/
structure ListResult where
  data : List Row
  total : Nat
deriving DecidableEq, Repr

/-- genericService.ts `list` (lines 6-62): existence guard, offset, WHERE
construction, optional ORDER BY, `LIMIT :limit OFFSET :offset` page, and a
separate COUNT(*) query over the same WHERE (no limit / offset / order).
MySQL rejects a negative bound LIMIT or OFFSET value, surfacing as a driver
error. -/
def GenericService.list (db : DB) (table : String) (page limit : Int)
    (filters : Filters) (sortBy sortOrder : Option String) :
    Except Err ListResult :=
  if !checkTableExists db table then .error Err.invalidTable
  else
    let offset := listOffset page limit
    let clauses := buildClauses filters
    let matched := (rowsOf db table).filter (fun r => rowMatches r clauses)
    let sorted := applySort matched sortBy sortOrder
    if limit < 0 || offset < 0 then .error (Err.driver "negative LIMIT or OFFSET")
    else .ok { data := (sorted.drop offset.toNat).take limit.toNat
               total := matched.length }

/-- Service-layer process state: the metadata cache plus the database. -/
structure AppState where
  cache : MetaCache
  db : DB
deriving DecidableEq, Repr

/-- genericService.ts `get` (lines 64-76): existence guard, primary-key
resolution via the (cached) metadata, single-row SELECT; `result[0]` is
`undefined` (here `none`) when no row matches — not an error. -/
def GenericService.get (st : AppState) (table : String) (id : Value) :
    AppState × Except Err (Option Row) :=
  if !checkTableExists st.db table then (st, .error Err.invalidTable)
  else
    match getTableMetadata st.cache st.db table with
    | .error e => (st, .error e)
    | .ok (metadata, cache2) =>
      let pk := metadata.primaryKey
      let result := (rowsOf st.db table).filter (fun r => sqlEq (rowVal r pk) id)
      ({ cache := cache2, db := st.db }, .ok result.head?)

/-- The JS truthiness test on an optional CHARACTER_MAXIMUM_LENGTH
(`col.maxLength &&`): NULL and 0 are falsy. -/
def maxLenTruthy : Option Nat → Bool
  | none => false
  | some m => m != 0

/-- The per-column validation loop of `create` (genericService.ts lines
85-92): a non-nullable, non-auto-increment column must be present in the
body (strictly-undefined test); a column with a truthy maxLength and a
truthy supplied value must not exceed the length after String() conversion.
The first offending column throws. -/
def validateRow (cols : List ColumnMeta) (data : Row) : Except Err Unit :=
  match cols with
  | [] => .ok ()
  | c :: rest =>
    if !c.nullable && !c.isAutoIncrement && (lookupRow data c.name).isNone then
      .error (Err.validation ("Column '" ++ c.name ++ "' is required"))
    else if maxLenTruthy c.maxLength
        && (((lookupRow data c.name).map Value.truthy).getD false)
        && decide (((lookupRow data c.name).getD Value.null).jsString.length > c.maxLength.getD 0) then
      .error (Err.validation ("Column '" ++ c.name ++ "' exceeds max length of "
        ++ toString (c.maxLength.getD 0)))
    else validateRow rest data

/-- The `SELECT unique_constraints FROM table_configurations WHERE
table_name = :table AND deleted_at IS NULL` query of create/update (lines
96-102 / 156-162), followed by the `config?.unique_constraints` truthiness
test and Array/JSON.parse tolerance: `none` models both a missing row and a
NULL column.  Raises a driver error when the configurations table is
faulted. -/
def getUniqueConstraintsE (db : DB) (t : String) :
    Except Err (Option (List String)) :=
  if db.cfgFail then .error (Err.driver "table_configurations query failed")
  else .ok ((db.configs.find? (fun c => c.table_name == t && c.deleted_at == none)).bind
    (fun c => c.unique_constraints))

/-- The per-column duplicate loop of `create` (lines 110-124): for each
unique column with a defined, non-null body value, COUNT rows having that
value; a positive count throws the conflict error. -/
def checkUniqueCreate (db : DB) (t : String) (ucs : List String) (data : Row) :
    Except Err Unit :=
  match ucs with
  | [] => .ok ()
  | column :: rest =>
    match lookupRow data column with
    | some v =>
      if v != Value.null then
        if (rowsOf db t).countP (fun r => sqlEq (rowVal r column) v) > 0 then
          .error (Err.conflict ("Record with " ++ column ++ ": '"
            ++ v.jsString ++ "' already exists"))
        else checkUniqueCreate db t rest data
      else checkUniqueCreate db t rest data
    | none => checkUniqueCreate db t rest data

/-- The body of the try block in `create` (lines 96-125). -/
def createUniqueTry (db : DB) (t : String) (data : Row) : Except Err Unit :=
  match getUniqueConstraintsE db t with
  | .error e => .error e
  | .ok none => .ok ()
  | .ok (some ucs) => checkUniqueCreate db t ucs data

/-- The try/catch around the uniqueness section of `create` (lines 95-132):
only errors whose message contains 'already exists' are rethrown; any other
error — in particular a driver error from the configuration lookup or a
COUNT query — is swallowed and the operation continues. -/
def createUniqueSection (db : DB) (t : String) (data : Row) : Except Err Unit :=
  match createUniqueTry db t data with
  | .ok () => .ok ()
  | .error e => if e.isConflict then .error e else .ok ()

/-- The per-column duplicate loop of `update` (lines 170-184): as in create
but the COUNT predicate adds `pk != :id`, excluding the row being updated. -/
def checkUniqueUpdate (db : DB) (t : String) (pk : String) (id : Value)
    (ucs : List String) (data : Row) : Except Err Unit :=
  match ucs with
  | [] => .ok ()
  | column :: rest =>
    match lookupRow data column with
    | some v =>
      if v != Value.null then
        if (rowsOf db t).countP
            (fun r => sqlEq (rowVal r column) v && sqlNe (rowVal r pk) id) > 0 then
          .error (Err.conflict ("Record with " ++ column ++ ": '"
            ++ v.jsString ++ "' already exists"))
        else checkUniqueUpdate db t pk id rest data
      else checkUniqueUpdate db t pk id rest data
    | none => checkUniqueUpdate db t pk id rest data

/-- The body of the try block in `update` (lines 156-185). -/
def updateUniqueTry (db : DB) (t : String) (pk : String) (id : Value)
    (data : Row) : Except Err Unit :=
  match getUniqueConstraintsE db t with
  | .error e => .error e
  | .ok none => .ok ()
  | .ok (some ucs) => checkUniqueUpdate db t pk id ucs data

/-- The try/catch around the uniqueness section of `update` (lines 155-192),
with the same swallow-unless-conflict behavior as in create. -/
def updateUniqueSection (db : DB) (t : String) (pk : String) (id : Value)
    (data : Row) : Except Err Unit :=
  match updateUniqueTry db t pk id data with
  | .ok () => .ok ()
  | .error e => if e.isConflict then .error e else .ok ()

/-- `INSERT INTO t (keys) VALUES (...)` with the body's column/value pairs
(lines 134-142): appends the supplied pairs as a new row. -/
def insertRow (db : DB) (t : String) (data : Row) : DB :=
  { db with rows :=
      if db.rows.any (fun kv => kv.1 == t) then
        db.rows.map (fun kv => if kv.1 == t then (kv.1, kv.2 ++ [data]) else kv)
      else db.rows ++ [(t, [data])] }

/-- genericService.ts `create` (lines 78-145): existence guard, metadata
(cache write included), per-column validation, uniqueness section, then the
parameterized INSERT (which raises when the insert fault is set — that
statement is outside the try/catch, so the error propagates). -/
def GenericService.create (st : AppState) (table : String) (data : Row) :
    AppState × Except Err Row :=
  if !checkTableExists st.db table then (st, .error Err.invalidTable)
  else
    match getTableMetadata st.cache st.db table with
    | .error e => (st, .error e)
    | .ok (metadata, cache2) =>
      let st2 : AppState := { cache := cache2, db := st.db }
      match validateRow metadata.columns data with
      | .error e => (st2, .error e)
      | .ok () =>
        match createUniqueSection st2.db table data with
        | .error e => (st2, .error e)
        | .ok () =>
          if st2.db.insertFail then (st2, .error (Err.driver "insert failed"))
          else ({ cache := cache2, db := insertRow st2.db table data }, .ok data)

/-- SQL `SET k1 = ?, k2 = ?` applied to one row: each body key overwrites
the corresponding column (or adds it). -/
def applyUpdate (r : Row) (data : Row) : Row :=
  data.foldl (fun acc kv =>
    if acc.any (fun c => c.1 == kv.1) then
      acc.map (fun c => if c.1 == kv.1 then kv else c)
    else acc ++ [kv]) r

/-- genericService.ts `update` (lines 147-205): existence guard, metadata /
primary key, uniqueness section with self-exclusion, parameterized UPDATE of
every row matching the primary key, then re-fetch via `get`. -/
def GenericService.update (st : AppState) (table : String) (id : Value)
    (data : Row) : AppState × Except Err (Option Row) :=
  if !checkTableExists st.db table then (st, .error Err.invalidTable)
  else
    match getTableMetadata st.cache st.db table with
    | .error e => (st, .error e)
    | .ok (metadata, cache2) =>
      let pk := metadata.primaryKey
      let st2 : AppState := { cache := cache2, db := st.db }
      match updateUniqueSection st2.db table pk id data with
      | .error e => (st2, .error e)
      | .ok () =>
        let rows2 := st2.db.rows.map (fun kv =>
          if kv.1 == table then
            (kv.1, kv.2.map (fun r => if sqlEq (rowVal r pk) id then applyUpdate r data else r))
          else kv)
        let db2 : DB := { st2.db with rows := rows2 }
        GenericService.get { cache := cache2, db := db2 } table id

/-- genericService.ts `delete` (lines 207-219): existence guard, primary-key
resolution, DELETE by primary key; always succeeds. -/
def GenericService.delete (st : AppState) (table : String) (id : Value) :
    AppState × Except Err Unit :=
  if !checkTableExists st.db table then (st, .error Err.invalidTable)
  else
    match getTableMetadata st.cache st.db table with
    | .error e => (st, .error e)
    | .ok (metadata, cache2) =>
      let pk := metadata.primaryKey
      let rows2 := st.db.rows.map (fun kv =>
        if kv.1 == table then (kv.1, kv.2.filter (fun r => !sqlEq (rowVal r pk) id))
        else kv)
      let db2 : DB := { st.db with rows := rows2 }
      ({ cache := cache2, db := db2 }, .ok ())

/-- Hexadecimal digit value, for the 0x-radix path of JS parseInt. -/
def hexDigitVal (c : Char) : Option Nat :=
  if c.isDigit then some (c.toNat - 48)
  else if 'a' ≤ c && c ≤ 'f' then some (c.toNat - 87)
  else if 'A' ≤ c && c ≤ 'F' then some (c.toNat - 55)
  else none

/-- Value of a list of decimal digits. -/
def decDigitsVal (cs : List Char) : Nat :=
  cs.foldl (fun a c => a * 10 + (c.toNat - 48)) 0

/-- Value of a list of hexadecimal digits. -/
def hexDigitsVal (cs : List Char) : Nat :=
  cs.foldl (fun a c => a * 16 + ((hexDigitVal c).getD 0)) 0

/-- JS `parseInt(s)` with the default radix: trim leading whitespace, an
optional sign, then the longest prefix of decimal digits (or, after an
`0x`/`0X` prefix, hexadecimal digits); `none` models NaN (no digits). -/
def parseIntJS (s : String) : Option Int :=
  let cs := s.toList.dropWhile Char.isWhitespace
  let sgn : Int := match cs with
    | '-' :: _ => -1
    | _ => 1
  let cs2 : List Char := match cs with
    | '-' :: r => r
    | '+' :: r => r
    | _ => cs
  match cs2 with
  | '0' :: c :: r =>
    if c == 'x' || c == 'X' then
      let ds := r.takeWhile (fun d => (hexDigitVal d).isSome)
      if ds.isEmpty then none else some (sgn * (hexDigitsVal ds : Int))
    else
      some (sgn * (decDigitsVal (cs2.takeWhile Char.isDigit) : Int))
  | _ =>
    let ds := cs2.takeWhile Char.isDigit
    if ds.isEmpty then none else some (sgn * (decDigitsVal ds : Int))

/-- JS `parseInt(x) || d`: the default is used when the parameter is absent
(parseInt of undefined is NaN) or parses to NaN or 0. -/
def parseIntOr (o : Option String) (d : Int) : Int :=
  match o with
  | none => d
  | some s =>
    match parseIntJS s with
    | none => d
    | some n => if n == 0 then d else n

/-- JS truthiness of an optional query-string parameter. -/
def truthyOptStr : Option String → Bool
  | none => false
  | some s => s != ""

/-- The raw pagination query parameters of a list request
(`current`, `pageSize`, `_start`, `_end`, `page`, `per_page`);
`qstart` / `qend` stand for `_start` / `_end`. -/
structure ListQuery where
  current : Option String
  pageSize : Option String
  qstart : Option String
  qend : Option String
  page : Option String
  per_page : Option String
deriving DecidableEq, Repr

/-- genericController.ts `list`, pagination normalization (lines 45-62).
Returns (page, limit); the page is `none` when the `_start`/`_end` dialect
divides by a zero window (JS produces NaN or ±Infinity there — non-finite,
collapsed to `none`); otherwise `Math.floor(start / limit) + 1` is the
floor division of the two integers. -/
def parsePagination (q : ListQuery) : Option Int × Int :=
  if truthyOptStr q.current && truthyOptStr q.pageSize then
    (some (parseIntOr q.current 1), parseIntOr q.pageSize 30)
  else if q.qstart.isSome && q.qend.isSome then
    let start := parseIntOr q.qstart 0
    let stop := parseIntOr q.qend 30
    let limit := stop - start
    (if limit == 0 then none else some (Int.fdiv start limit + 1), limit)
  else
    (some (parseIntOr q.page 1), parseIntOr q.per_page 30)

/-- JS object property assignment `filters[k] = v`: overwrite in place or
append as the newest key. -/
def setFilter (fs : Filters) (k : String) (v : FilterVal) : Filters :=
  if fs.any (fun kv => kv.1 == k) then
    fs.map (fun kv => if kv.1 == k then (k, v) else kv)
  else fs ++ [(k, v)]

/-- genericController.ts `list`, search-config load (lines 106-134): when a
truthy search query is present, the searchable-column list is read from the
table's non-deleted configuration row; a query failure is caught and the
search is skipped, as is an absent/NULL/empty column list.  Otherwise
`filters._search = {columns, query}` is installed. -/
def addSearchFilter (db : DB) (t : String) (filters : Filters)
    (searchQuery : Option String) : Filters :=
  match searchQuery with
  | none => filters
  | some q =>
    if q == "" then filters
    else if db.cfgFail then filters
    else
      match (db.configs.find? (fun c => c.table_name == t && c.deleted_at == none)).bind
          (fun c => c.searchable_columns) with
      | some cols =>
        if decide (cols.length > 0) then setFilter filters "_search" (FilterVal.search cols q)
        else filters
      | none => filters

/-- genericController.ts `create` (lines 158-166): 201 with the service
result on success, 400 with the error message on ANY caught error. -/
def GenericController.create (st : AppState) (table : String) (data : Row) :
    AppState × Nat :=
  match GenericService.create st table data with
  | (st2, .ok _) => (st2, 201)
  | (st2, .error _) => (st2, 400)

/-- The saveConfig request body (tableConfigController.ts line 67); array
fields are carried in parsed form as elsewhere. -/
structure SaveBody where
  table_name : Option String
  column_order : Option (List String)
  unique_constraints : Option (List String)
  sortable_columns : Option (List String)
  searchable_columns : Option (List String)
  filterable_columns : Option (List String)
deriving DecidableEq, Repr

/-- tableConfigController.ts `getConfig` (lines 25-63): the single row with
this table name and `deleted_at IS NULL`, or null. -/
def getConfig (db : DB) (t : String) : Option ConfigRow :=
  db.configs.find? (fun c => c.table_name == t && c.deleted_at == none)

/-- tableConfigController.ts `saveConfig` (lines 65-127): 400 when
`table_name` is falsy; otherwise the existence check `SELECT id FROM
table_configurations WHERE table_name = :table_name` — with NO deleted_at
filter — chooses between UPDATE (which rewrites the five array columns and
`updated_at` but never touches `deleted_at`) and INSERT of a fresh visible
row.  Returns the new database and the HTTP status. -/
def saveConfig (db : DB) (b : SaveBody) (now : Nat) (newId : Nat) : DB × Nat :=
  match b.table_name with
  | none => (db, 400)
  | some tn =>
    if tn == "" then (db, 400)
    else if db.configs.any (fun c => c.table_name == tn) then
      let configs2 := db.configs.map (fun c =>
        if c.table_name == tn then
          { c with
            column_order := b.column_order
            unique_constraints := b.unique_constraints
            sortable_columns := b.sortable_columns
            searchable_columns := b.searchable_columns
            filterable_columns := b.filterable_columns
            updated_at := some now }
        else c)
      ({ db with configs := configs2 }, 200)
    else
      let fresh : ConfigRow :=
        { id := newId
          table_name := tn
          column_order := b.column_order
          unique_constraints := b.unique_constraints
          sortable_columns := b.sortable_columns
          searchable_columns := b.searchable_columns
          filterable_columns := b.filterable_columns
          deleted_at := none
          updated_at := none }
      ({ db with configs := db.configs ++ [fresh] }, 200)

/-- tableConfigController.ts `deleteConfig` (lines 130-146): UPDATE setting
`deleted_at = NOW()` on every row with this table name; always succeeds. -/
def deleteConfig (db : DB) (t : String) (now : Nat) : DB :=
  { db with configs := db.configs.map (fun c =>
      if c.table_name == t then { c with deleted_at := some now } else c) }

/-! ## Shared concrete fixtures (used by witnesses and counterexamples) -/

/-- A catalog column: auto-increment integer primary key `id`. -/
def colId : CatColumn :=
  { name := "id", ctype := "int", isNullable := "NO", key := "PRI"
    extra := "auto_increment", maxLength := none }

/-- A catalog column: nullable `reg_no` varchar(3). -/
def colReg : CatColumn :=
  { name := "reg_no", ctype := "varchar", isNullable := "YES", key := ""
    extra := "", maxLength := some 3 }

/-- The `students` table definition. -/
def studentsT : TableDef := { name := "students", columns := [colId, colReg] }

/-- A configuration row for `students` with a unique constraint and a
searchable column on `reg_no`. -/
def cfgS : ConfigRow :=
  { id := 1, table_name := "students", column_order := none
    unique_constraints := some ["reg_no"], sortable_columns := none
    searchable_columns := some ["reg_no"], filterable_columns := none
    deleted_at := none, updated_at := none }

/-- A healthy database with two student rows. -/
def db1 : DB :=
  { catalog := [studentsT]
    rows := [("students",
      [[("id", Value.int 1), ("reg_no", Value.str "R1")],
       [("id", Value.int 2), ("reg_no", Value.str "R2")]])]
    configs := [cfgS], cfgFail := false, insertFail := false }

/-- App state over `db1` with a cold metadata cache. -/
def st1 : AppState := { cache := [], db := db1 }

/-- An empty database (no tables at all). -/
def dbEmpty : DB :=
  { catalog := [], rows := [], configs := [], cfgFail := false, insertFail := false }

/-! ## Introspection lemmas -/

/-- Modelled from the spec's words, for comparison with the computation in
the source: "determines primary key (first column flagged primary; else
literal `id`)". -/
def specFirstPrimary : List CatColumn → String
  | [] => "id"
  | c :: cs => if c.key == "PRI" then c.name else specFirstPrimary cs

lemma metaOfTable_primaryKey (t : String) (cols : List CatColumn) :
    (metaOfTable t cols).primaryKey = specFirstPrimary cols := by
  induction cols with
  | nil => rfl
  | cons c cs ih =>
    simp only [metaOfTable, List.find?] at *
    cases h : c.key == "PRI" with
    | true => simp [specFirstPrimary, h]
    | false => simpa [specFirstPrimary, h] using ih

lemma getTableMetadata_miss {cache : MetaCache} {db : DB} {t : String}
    (hcache : lookupCache cache t = none) (hex : checkTableExists db t = true) :
    getTableMetadata cache db t =
      .ok (metaOfTable t (catalogColumns db t),
           cache ++ [(t, metaOfTable t (catalogColumns db t))]) := by
  unfold getTableMetadata
  rw [hcache, hex]
  simp

lemma getTableMetadata_hit {cache : MetaCache} {db : DB} {t : String}
    {m : TableMeta} (hcache : lookupCache cache t = some m) :
    getTableMetadata cache db t = .ok (m, cache) := by
  unfold getTableMetadata
  rw [hcache]

lemma lookupCache_append_self {cache : MetaCache} {t : String} {m : TableMeta}
    (h : lookupCache cache t = none) :
    lookupCache (cache ++ [(t, m)]) t = some m := by
  unfold lookupCache at *
  rw [List.find?_append]
  have hf : cache.find? (fun kv => kv.1 == t) = none := by
    cases hh : cache.find? (fun kv => kv.1 == t) with
    | none => rfl
    | some kv => rw [hh] at h; simp at h
  rw [hf]
  simp [List.find?]

/-- C8: For every valid table, on a cache miss `describeTable` returns
metadata whose primary key is the name of the first catalog column flagged
as primary key, and the literal "id" when no column is flagged. -/
theorem C8_primary_key_first_flagged (cache : MetaCache) (db : DB) (t : String)
    (hcache : lookupCache cache t = none) (hex : checkTableExists db t = true) :
    ∃ m c2, getTableMetadata cache db t = .ok (m, c2) ∧
      m.primaryKey = specFirstPrimary (catalogColumns db t) := by
  refine ⟨metaOfTable t (catalogColumns db t), _, getTableMetadata_miss hcache hex, ?_⟩
  exact metaOfTable_primaryKey t (catalogColumns db t)

theorem C8_witness :
    ∃ m c2, getTableMetadata [] db1 "students" = .ok (m, c2) ∧
      m.primaryKey = specFirstPrimary (catalogColumns db1 "students") :=
  C8_primary_key_first_flagged [] db1 "students" (by rfl) (by rfl)

/-- A metadata object cached for a table name that no longer exists. -/
def mStale : TableMeta := metaOfTable "t0" []

/-- C3 counterexample: with a cache entry for "t0" present, `describeTable`
of "t0" over a database where the table does not exist returns the cached
metadata successfully instead of failing with the not-found error — the
cache is consulted before the existence check. -/
theorem C3_counterexample :
    checkTableExists dbEmpty "t0" = false ∧
      getTableMetadata [("t0", mStale)] dbEmpty "t0" = .ok (mStale, [("t0", mStale)]) :=
  ⟨rfl, rfl⟩

/-- C3 (amended): `describeTable` fails with the not-found error exactly when
the table does not exist AND no cache entry is present; with a cache entry
the cached metadata is returned unconditionally (even for a dropped table),
and the cache is unchanged. -/
theorem C3_amended_notfound_only_on_miss (cache : MetaCache) (db : DB) (t : String) :
    (lookupCache cache t = none → checkTableExists db t = false →
      getTableMetadata cache db t =
        .error (Err.notFound ("Table '" ++ t ++ "' does not exist"))) ∧
    (∀ m, lookupCache cache t = some m → getTableMetadata cache db t = .ok (m, cache)) := by
  constructor
  · intro hmiss hex
    unfold getTableMetadata
    rw [hmiss, hex]
    simp
  · intro m hhit
    exact getTableMetadata_hit hhit

theorem C3_witness :
    getTableMetadata [] dbEmpty "t0" =
      .error (Err.notFound ("Table '" ++ "t0" ++ "' does not exist")) ∧
    getTableMetadata [("t0", mStale)] dbEmpty "t0" = .ok (mStale, [("t0", mStale)]) :=
  ⟨(C3_amended_notfound_only_on_miss [] dbEmpty "t0").1 rfl rfl,
   (C3_amended_notfound_only_on_miss [("t0", mStale)] dbEmpty "t0").2 mStale rfl⟩

/-! ## WHERE-clause construction lemmas -/

lemma clauseStep_append (acc : List Clause) (kv : String × FilterVal) :
    clauseStep acc kv = acc ++ clauseStep [] kv := by
  unfold clauseStep
  split
  · simp
  · split
    · split <;> simp
    · simp

lemma foldl_clauseStep (fs : Filters) :
    ∀ acc : List Clause, fs.foldl clauseStep acc = acc ++ fs.foldl clauseStep [] := by
  induction fs with
  | nil => intro acc; simp
  | cons kv fs ih =>
    intro acc
    rw [List.foldl_cons, List.foldl_cons, ih (clauseStep acc kv),
      clauseStep_append acc kv, ih (clauseStep [] kv), List.append_assoc]

lemma buildClauses_cons (kv : String × FilterVal) (fs : Filters) :
    buildClauses (kv :: fs) = clauseStep [] kv ++ buildClauses fs := by
  unfold buildClauses
  rw [List.foldl_cons, foldl_clauseStep]

lemma buildClauses_append (a b : Filters) :
    buildClauses (a ++ b) = buildClauses a ++ buildClauses b := by
  unfold buildClauses
  rw [List.foldl_append, foldl_clauseStep]

lemma clauseStep_empty (kv : String × FilterVal) (h : filterEmpty kv.2 = true) :
    clauseStep [] kv = [] := by
  unfold clauseStep
  rw [h]
  simp

lemma buildClauses_skip (pre post : Filters) (k : String) (fv : FilterVal)
    (h : filterEmpty fv = true) :
    buildClauses (pre ++ (k, fv) :: post) = buildClauses (pre ++ post) := by
  rw [buildClauses_append, buildClauses_append, buildClauses_cons,
    clauseStep_empty (k, fv) h, List.nil_append]

/-- C10: A filter entry whose value is undefined or the empty string
contributes no WHERE predicate at all: `list` returns exactly the same
result as with the entry removed from the filters map. -/
theorem C10_empty_filter_dropped (db : DB) (t : String) (page limit : Int)
    (pre post : Filters) (k : String) (fv : FilterVal)
    (sortBy sortOrder : Option String)
    (h : fv = FilterVal.undef ∨ fv = FilterVal.val (Value.str "")) :
    GenericService.list db t page limit (pre ++ (k, fv) :: post) sortBy sortOrder =
      GenericService.list db t page limit (pre ++ post) sortBy sortOrder := by
  have hfe : filterEmpty fv = true := by
    rcases h with h | h <;> subst h <;> rfl
  unfold GenericService.list
  rw [buildClauses_skip pre post k fv hfe]

theorem C10_witness :
    GenericService.list db1 "students" 1 30
        ([("reg_no", FilterVal.val (Value.str "R1"))] ++ [("dept", FilterVal.val (Value.str ""))]) none none =
      GenericService.list db1 "students" 1 30
        ([("reg_no", FilterVal.val (Value.str "R1"))] ++ []) none none :=
  C10_empty_filter_dropped db1 "students" 1 30
    [("reg_no", FilterVal.val (Value.str "R1"))] [] "dept"
    (FilterVal.val (Value.str "")) none none (Or.inr rfl)

/-! ## list pagination lemmas -/

lemma insertSorted_length (le : Row → Row → Bool) (x : Row) (l : List Row) :
    (insertSorted le x l).length = l.length + 1 := by
  induction l with
  | nil => rfl
  | cons y ys ih =>
    unfold insertSorted
    split
    · simp
    · simp [ih]

lemma sortRows_length (le : Row → Row → Bool) (l : List Row) :
    (sortRows le l).length = l.length := by
  induction l with
  | nil => rfl
  | cons x xs ih =>
    unfold sortRows
    rw [insertSorted_length, ih]
    simp

lemma applySort_length (rows : List Row) (sortBy sortOrder : Option String) :
    (applySort rows sortBy sortOrder).length = rows.length := by
  unfold applySort
  cases sortBy with
  | none => rfl
  | some sb =>
    cases sortOrder with
    | none => rfl
    | some so =>
      by_cases h1 : (sb != "" && so != "") = true
      · by_cases h2 : (so.toUpper == "DESC") = true
        · simp [h1, h2, sortRows_length]
        · simp [h1, h2, sortRows_length]
      · simp [h1]

/-- C7: On a valid table with page ≥ 1 and limit ≥ 0, `list` succeeds, the
returned data holds at most `limit` rows, and the returned total is the
count of ALL rows matching the filter predicates — an expression free of
page and limit, so the total is independent of the pagination window. -/
theorem C7_data_bounded_total_filter_count (db : DB) (t : String)
    (page limit : Int) (filters : Filters) (sortBy sortOrder : Option String)
    (hex : checkTableExists db t = true) (hp : 1 ≤ page) (hl : 0 ≤ limit) :
    ∃ res, GenericService.list db t page limit filters sortBy sortOrder = .ok res ∧
      res.data.length ≤ limit.toNat ∧
      res.total = ((rowsOf db t).filter
        (fun r => rowMatches r (buildClauses filters))).length := by
  have hoff : 0 ≤ listOffset page limit := by
    unfold listOffset
    have h1 : (0 : Int) ≤ page - 1 := by omega
    exact mul_nonneg h1 hl
  unfold GenericService.list
  rw [hex]
  have hneg : (limit < 0 || listOffset page limit < 0) = false := by
    simp only [Bool.or_eq_false_iff, decide_eq_false_iff_not, not_lt]
    exact ⟨hl, hoff⟩
  simp only [Bool.not_true, Bool.false_eq_true, if_false, hneg]
  refine ⟨_, rfl, ?_, rfl⟩
  calc (((applySort ((rowsOf db t).filter
          (fun r => rowMatches r (buildClauses filters))) sortBy sortOrder).drop
            (listOffset page limit).toNat).take limit.toNat).length
      ≤ limit.toNat := by
        rw [List.length_take]
        exact Nat.min_le_left _ _

theorem C7_witness :
    ∃ res, GenericService.list db1 "students" 2 1 [] none none = .ok res ∧
      res.data.length ≤ (1 : Int).toNat ∧
      res.total = ((rowsOf db1 "students").filter
        (fun r => rowMatches r (buildClauses []))).length :=
  C7_data_bounded_total_filter_count db1 "students" 2 1 [] none none
    (by rfl) (by decide) (by decide)

/-! ## Pagination (C2) -/

/-- A list query using the `current`/`pageSize` dialect with a negative
numeric page. -/
def qNeg : ListQuery :=
  { current := some "-5", pageSize := some "10", qstart := none, qend := none
    page := none, per_page := none }

/-- C2 counterexample: the claim says any invalid page value falls back to
the default so that page ≥ 1; but `parseInt('-5') || 1` keeps -5, and the
controller passes page = -5 (< 1) to the service. -/
theorem C2_counterexample :
    parsePagination qNeg = (some (-5), 10) ∧ (-5 : Int) < 1 := by
  constructor
  · decide
  · decide

/-- A supplied pagination parameter is benign: it is absent, fails to parse
(NaN), or parses to 0 or a value ≥ 1 — i.e. the fallback repair applies or
no repair is needed. -/
def goodParamB (o : Option String) : Bool :=
  match o.bind parseIntJS with
  | none => true
  | some n => n == 0 || decide (1 ≤ n)

lemma parseIntOr_pos {o : Option String} {d : Int} (hd : 1 ≤ d)
    (h : goodParamB o = true) : 1 ≤ parseIntOr o d := by
  cases o with
  | none => simpa [parseIntOr] using hd
  | some s =>
    cases hp : parseIntJS s with
    | none => simpa [parseIntOr, hp] using hd
    | some n =>
      have h2 : (n == 0 || decide (1 ≤ n)) = true := by
        have h3 : (match parseIntJS s with
          | none => true
          | some m => m == 0 || decide (1 ≤ m)) = true := h
        rw [hp] at h3
        exact h3
      by_cases hn : n = 0
      · simpa [parseIntOr, hp, hn] using hd
      · have hge : 1 ≤ n := by
          rcases (Bool.or_eq_true _ _).mp h2 with h0 | h1
          · exact absurd (by simpa using h0) hn
          · exact of_decide_eq_true h1
        simpa [parseIntOr, hp, hn] using hge

/-- C2 (amended): the fallback to the defaults page = 1, limit = 30 applies
only when a pagination parameter is absent or parses to NaN or 0; other
numeric values — including negatives — pass through unchanged, so page and
limit need not be ≥ 1 in general.  Whenever every supplied parameter parses
to NaN, 0 or a value ≥ 1, and in the `_start`/`_end` dialect the window
satisfies start ≥ 0 and end − start ≥ 1, the parsed page and limit are both
≥ 1, and the service computes the query offset as (page − 1) × limit. -/
theorem C2_amended_page_limit_pos (q : ListQuery)
    (h1 : goodParamB q.current = true) (h2 : goodParamB q.pageSize = true)
    (h3 : goodParamB q.page = true) (h4 : goodParamB q.per_page = true)
    (h5 : q.qstart.isSome = true → q.qend.isSome = true →
      0 ≤ parseIntOr q.qstart 0 ∧ 1 ≤ parseIntOr q.qend 30 - parseIntOr q.qstart 0) :
    ∃ p, (parsePagination q).1 = some p ∧ 1 ≤ p ∧ 1 ≤ (parsePagination q).2 ∧
      listOffset p (parsePagination q).2 = (p - 1) * (parsePagination q).2 := by
  unfold parsePagination
  by_cases hb1 : (truthyOptStr q.current && truthyOptStr q.pageSize) = true
  · simp only [hb1, if_true]
    exact ⟨parseIntOr q.current 1, rfl, parseIntOr_pos (by decide) h1,
      parseIntOr_pos (by decide) h2, rfl⟩
  · simp only [hb1, Bool.false_eq_true, if_false]
    by_cases hb2 : (q.qstart.isSome && q.qend.isSome) = true
    · rcases Bool.and_eq_true_iff.mp hb2 with ⟨hs, he⟩
      rcases h5 hs he with ⟨hstart, hwin⟩
      simp only [hb2, hs, he, Bool.and_self, if_true]
      set s := parseIntOr q.qstart 0 with hsdef
      set e := parseIntOr q.qend 30 with hedef
      have hlim : (1 : Int) ≤ e - s := hwin
      have hlz : ((e - s) == 0) = false := by
        simp only [beq_eq_false_iff_ne, ne_eq]
        omega
      rw [hlz]
      simp only [Bool.false_eq_true, if_false]
      refine ⟨Int.fdiv s (e - s) + 1, rfl, ?_, hlim, rfl⟩
      have hfd : 0 ≤ Int.fdiv s (e - s) := by
        rw [Int.fdiv_eq_ediv _ (by omega)]
        exact Int.ediv_nonneg hstart (by omega)
      omega
    · simp only [hb2, Bool.false_eq_true, if_false]
      exact ⟨parseIntOr q.page 1, rfl, parseIntOr_pos (by decide) h3,
        parseIntOr_pos (by decide) h4, rfl⟩

/-- A benign list query in the `current`/`pageSize` dialect. -/
def qGood : ListQuery :=
  { current := some "2", pageSize := some "25", qstart := none, qend := none
    page := none, per_page := none }

theorem C2_witness :
    ∃ p, (parsePagination qGood).1 = some p ∧ 1 ≤ p ∧
      1 ≤ (parsePagination qGood).2 ∧
      listOffset p (parsePagination qGood).2 = (p - 1) * (parsePagination qGood).2 :=
  C2_amended_page_limit_pos qGood (by decide) (by decide) (by decide) (by decide)
    (by intro h _; exact absurd h (by decide))

/-! ## Validation (C5) -/

lemma validateRow_err (cols : List ColumnMeta) (data : Row)
    (h : ∃ c ∈ cols,
      (c.nullable = false ∧ c.isAutoIncrement = false ∧ lookupRow data c.name = none) ∨
      (maxLenTruthy c.maxLength = true ∧
        ((lookupRow data c.name).map Value.truthy).getD false = true ∧
        ((lookupRow data c.name).getD Value.null).jsString.length > c.maxLength.getD 0)) :
    ∃ msg, validateRow cols data = .error (Err.validation msg) := by
  induction cols with
  | nil => simp at h
  | cons c rest ih =>
    unfold validateRow
    by_cases h1 : (!c.nullable && !c.isAutoIncrement && (lookupRow data c.name).isNone) = true
    · rw [if_pos h1]
      exact ⟨_, rfl⟩
    · rw [if_neg h1]
      by_cases h2 : (maxLenTruthy c.maxLength
          && (((lookupRow data c.name).map Value.truthy).getD false)
          && decide (((lookupRow data c.name).getD Value.null).jsString.length > c.maxLength.getD 0)) = true
      · rw [if_pos h2]
        exact ⟨_, rfl⟩
      · rw [if_neg h2]
        rcases h with ⟨c', hc', hviol⟩
        rcases List.mem_cons.mp hc' with heq | hmem
        · subst heq
          exfalso
          rcases hviol with ⟨hn, ha, hu⟩ | ⟨hm, ht, hl⟩
          · exact h1 (by simp [hn, ha, hu])
          · exact h2 (by simp [hm, ht, hl])
        · exact ih ⟨c', hmem, hviol⟩

/-- C5 (amended): `create` fails with a Validation error and leaves the
database unchanged whenever some non-nullable, non-auto-increment column is
absent from the body, or some column with a truthy (non-null, non-zero)
maximum length receives a truthy value whose String() length exceeds it.
(The source's length check is guarded by JS truthiness, so falsy values —
false, 0, '', null — skip it; the original claim fails there.) -/
theorem C5_amended_validation_blocks_write (st : AppState) (table : String)
    (data : Row)
    (hcache : lookupCache st.cache table = none)
    (hex : checkTableExists st.db table = true)
    (hviol : ∃ c ∈ (metaOfTable table (catalogColumns st.db table)).columns,
      (c.nullable = false ∧ c.isAutoIncrement = false ∧ lookupRow data c.name = none) ∨
      (maxLenTruthy c.maxLength = true ∧
        ((lookupRow data c.name).map Value.truthy).getD false = true ∧
        ((lookupRow data c.name).getD Value.null).jsString.length > c.maxLength.getD 0)) :
    ∃ msg st2, GenericService.create st table data = (st2, .error (Err.validation msg)) ∧
      st2.db = st.db := by
  rcases validateRow_err _ data hviol with ⟨msg, hval⟩
  unfold GenericService.create
  simp only [hex, Bool.not_true, Bool.false_eq_true, if_false]
  rw [getTableMetadata_miss hcache hex]
  simp only [hval]
  exact ⟨msg, _, rfl, rfl⟩

/-- A catalog column: NOT NULL `name` varchar(100). -/
def colName : CatColumn :=
  { name := "name", ctype := "varchar", isNullable := "NO", key := ""
    extra := "", maxLength := some 100 }

/-- A catalog column: NOT NULL `code` varchar(3). -/
def colCode : CatColumn :=
  { name := "code", ctype := "varchar", isNullable := "NO", key := ""
    extra := "", maxLength := some 3 }

/-- The `countries` table definition. -/
def countriesT : TableDef := { name := "countries", columns := [colId, colName, colCode] }

/-- A database holding an empty `countries` table and no configuration. -/
def dbCountries : DB :=
  { catalog := [countriesT], rows := [("countries", [])], configs := []
    cfgFail := false, insertFail := false }

/-- App state over `dbCountries` with a cold cache. -/
def stCountries : AppState := { cache := [], db := dbCountries }

theorem C5_witness :
    ∃ msg st2, GenericService.create stCountries "countries"
        [("name", Value.str "India")] = (st2, .error (Err.validation msg)) ∧
      st2.db = stCountries.db :=
  C5_amended_validation_blocks_write stCountries "countries"
    [("name", Value.str "India")] (by decide) (by decide) (by decide)

/-- The `students` table with no rows and, crucially, NO configuration row:
the uniqueness section of `create` finds no `unique_constraints`, so no
COUNT query — and hence no SQL comparison of any kind — runs on this
database. -/
def dbNoCfg : DB :=
  { catalog := [studentsT], rows := [("students", [])], configs := []
    cfgFail := false, insertFail := false }

/-- App state over `dbNoCfg` with a cold cache. -/
def stNoCfg : AppState := { cache := [], db := dbNoCfg }

/-- C5 counterexample: `reg_no` has maximum length 3 and receives the value
`false`, whose String() image "false" has length 5 > 3; yet `create`
succeeds and inserts the row, because the length check
(`col.maxLength && data[col.name] && ...`) is skipped for falsy values.
The table has no configuration row, so the uniqueness section issues no
COUNT query: every comparison this run performs is between same-typed
values, and the INSERT itself succeeds (MySQL stores the boolean as '0'). -/
theorem C5_counterexample :
    ((metaOfTable "students" (catalogColumns dbNoCfg "students")).columns.any
      (fun c => c.name == "reg_no" && c.maxLength == some 3)) = true ∧
    lookupRow [("reg_no", Value.bool false)] "reg_no" = some (Value.bool false) ∧
    (Value.bool false).jsString.length > 3 ∧
    (GenericService.create stNoCfg "students" [("reg_no", Value.bool false)]).2 =
      .ok [("reg_no", Value.bool false)] := by
  exact ⟨by decide, by decide, by decide, by rfl⟩

/-! ## Configuration soft-delete / upsert (C9) -/

/-- C9: After `deleteConfiguration(t)`, a `saveConfiguration` for the same
table reports success but updates the soft-deleted row in place: the
existence check ignores the soft-delete marker and the UPDATE branch never
clears it.  No new row is inserted, every row's `deleted_at` is unchanged,
and a subsequent `getConfiguration(t)` still returns null — the saved
configuration does not round-trip. -/
theorem C9_save_after_delete_invisible (db : DB) (t : String) (b : SaveBody)
    (now1 now2 nid : Nat)
    (hb : b.table_name = some t) (ht : t ≠ "")
    (hexists : db.configs.any (fun c => c.table_name == t) = true) :
    (saveConfig (deleteConfig db t now1) b now2 nid).2 = 200 ∧
    (saveConfig (deleteConfig db t now1) b now2 nid).1.configs.length = db.configs.length ∧
    getConfig (saveConfig (deleteConfig db t now1) b now2 nid).1 t = none ∧
    (saveConfig (deleteConfig db t now1) b now2 nid).1.configs.map (fun c => c.deleted_at) =
      (deleteConfig db t now1).configs.map (fun c => c.deleted_at) := by
  have htb : (t == "") = false := by
    simp only [beq_eq_false_iff_ne, ne_eq]
    exact ht
  have hexD : (deleteConfig db t now1).configs.any (fun c => c.table_name == t) = true := by
    unfold deleteConfig
    simp only [List.any_map]
    have hfun : ((fun c : ConfigRow => c.table_name == t) ∘
        (fun c : ConfigRow => if c.table_name == t then { c with deleted_at := some now1 } else c)) =
        (fun c : ConfigRow => c.table_name == t) := by
      funext c
      by_cases hc : (c.table_name == t) = true <;> simp [Function.comp, hc]
    rw [hfun]
    exact hexists
  unfold saveConfig
  rw [hb]
  simp only [htb, Bool.false_eq_true, if_false, hexD, if_true]
  refine ⟨by trivial, ?_, ?_, ?_⟩
  · unfold deleteConfig
    simp
  · unfold getConfig deleteConfig
    unfold deleteConfig at hexD
    rw [List.find?_eq_none]
    intro x hx
    simp only [List.map_map, List.mem_map, Function.comp] at hx
    rcases hx with ⟨c, _, rfl⟩
    by_cases hct : (c.table_name == t) = true <;> simp [hct]
  · unfold deleteConfig
    simp only [List.map_map]
    apply List.map_congr_left
    intro c _
    by_cases hct : (c.table_name == t) = true <;> simp [Function.comp, hct]

/-- A configuration body re-saving `students`. -/
def bodyS : SaveBody :=
  { table_name := some "students", column_order := none
    unique_constraints := some ["reg_no"], sortable_columns := none
    searchable_columns := none, filterable_columns := none }

theorem C9_witness :
    (saveConfig (deleteConfig db1 "students" 99) bodyS 100 7).2 = 200 ∧
    (saveConfig (deleteConfig db1 "students" 99) bodyS 100 7).1.configs.length =
      db1.configs.length ∧
    getConfig (saveConfig (deleteConfig db1 "students" 99) bodyS 100 7).1 "students" = none ∧
    (saveConfig (deleteConfig db1 "students" 99) bodyS 100 7).1.configs.map
        (fun c => c.deleted_at) =
      (deleteConfig db1 "students" 99).configs.map (fun c => c.deleted_at) :=
  C9_save_after_delete_invisible db1 "students" bodyS 99 100 7
    (by rfl) (by decide) (by rfl)

/-! ## Search filter translation (C6) -/

/-- An ordinary (non-search) filter value that survives the skip test. -/
def ordinaryNonEmpty : FilterVal → Bool
  | .val (.str s) => s != ""
  | .val _ => true
  | _ => false

lemma clauseStep_ordinary (k : String) (fv : FilterVal)
    (hk : (k == "_search") = false) (h : ordinaryNonEmpty fv = true) :
    clauseStep [] (k, fv) = [Clause.eq k (paramVal fv)] := by
  unfold clauseStep
  cases fv with
  | undef => simp [ordinaryNonEmpty] at h
  | val v =>
    cases v with
    | str s =>
      have hs : (s == "") = false := by simpa [ordinaryNonEmpty] using h
      simp [filterEmpty, hs, hk]
    | int n => simp [filterEmpty, hk]
    | bool b => simp [filterEmpty, hk]
    | null => simp [filterEmpty, hk]
  | search cols q => simp [hk, filterEmpty]

lemma buildClauses_ordinary (fs : Filters)
    (h : ∀ kv ∈ fs, (kv.1 == "_search") = false ∧ ordinaryNonEmpty kv.2 = true) :
    buildClauses fs = fs.map (fun kv => Clause.eq kv.1 (paramVal kv.2)) := by
  induction fs with
  | nil => rfl
  | cons kv fs ih =>
    obtain ⟨k, fv⟩ := kv
    rcases h (k, fv) (List.mem_cons_self _ _) with ⟨hk, ho⟩
    rw [buildClauses_cons, clauseStep_ordinary k fv hk ho,
      ih (fun x hx => h x (List.mem_cons_of_mem _ hx))]
    simp

lemma clauseStep_search (cols : List String) (q : String)
    (hcols : cols ≠ []) (hq : (q == "") = false) :
    clauseStep [] ("_search", FilterVal.search cols q) = [Clause.search cols q] := by
  have hq2 : ¬q = "" := by simpa using hq
  unfold clauseStep
  simp [filterEmpty, List.length_pos.mpr hcols, hq2]

lemma addSearchFilter_eq (db : DB) (t : String) (filters : Filters) (q : String)
    (row : ConfigRow) (cols : List String)
    (hfail : db.cfgFail = false) (hq : (q == "") = false)
    (hcfg : getConfig db t = some row)
    (hsc : row.searchable_columns = some cols) (hcols : cols ≠ [])
    (hnos : ∀ kv ∈ filters, (kv.1 == "_search") = false) :
    addSearchFilter db t filters (some q) =
      filters ++ [("_search", FilterVal.search cols q)] := by
  have hlookup : (db.configs.find? (fun c => c.table_name == t && c.deleted_at == none)).bind
      (fun c => c.searchable_columns) = some cols := by
    unfold getConfig at hcfg
    rw [hcfg]
    simpa using hsc
  have hlen : (decide (cols.length > 0)) = true :=
    decide_eq_true (List.length_pos.mpr hcols)
  have hany : (filters.any (fun kv => kv.1 == "_search")) = false := by
    rw [List.any_eq_false]
    intro x hx
    simp [hnos x hx]
  unfold addSearchFilter
  simp only [hq, Bool.false_eq_true, if_false, hfail, hlookup, hlen, if_true]
  unfold setFilter
  rw [hany]
  simp

lemma flatten_singletons {α β : Type} (f : α → β) (l : List α) :
    (l.map (fun a => [f a])).flatten = l.map f := by
  induction l with
  | nil => rfl
  | cons x xs ih => simp [ih]

/-- C6: With a search query and a non-deleted configuration row supplying a
non-empty searchable-column set, the WHERE clause built by `list` is the
AND-conjunction of one parameterized equality predicate per ordinary filter
key followed by a single parenthesized OR-disjunction of `col LIKE
:search_idx` clauses, one per searchable column, whose parameters all bind
the pattern '%query%'. -/
theorem C6_search_clause_conjunction (db : DB) (t : String) (filters : Filters)
    (q : String) (row : ConfigRow) (cols : List String)
    (hfail : db.cfgFail = false) (hq : (q == "") = false)
    (hcfg : getConfig db t = some row)
    (hsc : row.searchable_columns = some cols) (hcols : cols ≠ [])
    (hord : ∀ kv ∈ filters, (kv.1 == "_search") = false ∧ ordinaryNonEmpty kv.2 = true) :
    whereSQL (buildClauses (addSearchFilter db t filters (some q))) =
      "WHERE " ++ String.intercalate " AND "
        (filters.map (fun kv => kv.1 ++ " = :filter_" ++ kv.1) ++
          ["(" ++ String.intercalate " OR "
            (cols.enum.map (fun p => p.2 ++ " LIKE :search_" ++ toString p.1)) ++ ")"]) ∧
    clausesRepl (buildClauses (addSearchFilter db t filters (some q))) =
      filters.map (fun kv => ("filter_" ++ kv.1, paramVal kv.2)) ++
        cols.enum.map (fun p => ("search_" ++ toString p.1, Value.str ("%" ++ q ++ "%"))) := by
  rw [addSearchFilter_eq db t filters q row cols hfail hq hcfg hsc hcols
    (fun kv hkv => (hord kv hkv).1)]
  have hsingle : buildClauses [("_search", FilterVal.search cols q)] = [Clause.search cols q] := by
    rw [buildClauses_cons, clauseStep_search cols q hcols hq]
    rfl
  rw [buildClauses_append, buildClauses_ordinary filters hord, hsingle]
  constructor
  · unfold whereSQL
    have hne : ((filters.map (fun kv => Clause.eq kv.1 (paramVal kv.2)) ++
        [Clause.search cols q]).isEmpty) = false := by
      simp
    rw [hne]
    simp only [Bool.false_eq_true, if_false, List.map_append, List.map_map]
    rfl
  · unfold clausesRepl
    rw [List.map_append, List.flatten_append]
    congr 1
    · rw [List.map_map]
      exact flatten_singletons (fun kv => ("filter_" ++ kv.1, paramVal kv.2)) filters
    · simp [clauseRepl]

theorem C6_witness :
    whereSQL (buildClauses (addSearchFilter db1 "students"
        [("dept", FilterVal.val (Value.str "cs"))] (some "doe"))) =
      "WHERE " ++ String.intercalate " AND "
        ([("dept", FilterVal.val (Value.str "cs"))].map
            (fun kv => kv.1 ++ " = :filter_" ++ kv.1) ++
          ["(" ++ String.intercalate " OR "
            ((["reg_no"] : List String).enum.map
              (fun p => p.2 ++ " LIKE :search_" ++ toString p.1)) ++ ")"]) ∧
    clausesRepl (buildClauses (addSearchFilter db1 "students"
        [("dept", FilterVal.val (Value.str "cs"))] (some "doe"))) =
      [("dept", FilterVal.val (Value.str "cs"))].map
          (fun kv => ("filter_" ++ kv.1, paramVal kv.2)) ++
        (["reg_no"] : List String).enum.map
          (fun p => ("search_" ++ toString p.1, Value.str ("%" ++ "doe" ++ "%"))) :=
  C6_search_clause_conjunction db1 "students"
    [("dept", FilterVal.val (Value.str "cs"))] "doe" cfgS ["reg_no"]
    (by rfl) (by rfl) (by rfl) (by rfl) (by decide) (by decide)

/-! ## Error propagation in create (C4) -/

lemma find?_map_bump (l : List (String × List Row)) (t : String) (data : Row) :
    ((l.map (fun kv => if kv.1 == t then (kv.1, kv.2 ++ [data]) else kv)).find?
      (fun kv => kv.1 == t)) =
    (l.find? (fun kv => kv.1 == t)).map (fun kv => (kv.1, kv.2 ++ [data])) := by
  induction l with
  | nil => rfl
  | cons kv l ih =>
    obtain ⟨k, rs⟩ := kv
    simp only [List.map_cons]
    cases hk : (k == t) with
    | true =>
      simp only [hk, if_true, List.find?]
      rfl
    | false =>
      simp only [hk, Bool.false_eq_true, if_false, List.find?]
      exact ih

lemma rowsOf_insertRow (db : DB) (t : String) (data : Row) :
    rowsOf (insertRow db t data) t = rowsOf db t ++ [data] := by
  unfold insertRow rowsOf
  by_cases h : db.rows.any (fun kv => kv.1 == t) = true
  · rw [if_pos h]
    simp only [find?_map_bump]
    cases hf : db.rows.find? (fun kv => kv.1 == t) with
    | none =>
      exfalso
      rcases List.any_eq_true.mp h with ⟨x, hx, hpx⟩
      exact (List.find?_eq_none.mp hf x hx) hpx
    | some kv0 => simp
  · rw [if_neg h]
    have hf : db.rows.find? (fun kv => kv.1 == t) = none := by
      rw [List.find?_eq_none]
      intro x hx hpx
      exact h (List.any_eq_true.mpr ⟨x, hx, hpx⟩)
    rw [List.find?_append, hf]
    simp [List.find?]

lemma createUniqueSection_cfgFail {db : DB} (t : String) (data : Row)
    (h : db.cfgFail = true) : createUniqueSection db t data = .ok () := by
  unfold createUniqueSection createUniqueTry getUniqueConstraintsE
  rw [h]
  simp [Err.isConflict]

/-- `db1` with a fault on the table_configurations queries. -/
def dbCfgFail : DB := { db1 with cfgFail := true }

/-- App state over `dbCfgFail` with a cold cache. -/
def stCfgFail : AppState := { cache := [], db := dbCfgFail }

/-- `db1` with faults on the table_configurations queries and the INSERT. -/
def dbBothFail : DB := { db1 with cfgFail := true, insertFail := true }

/-- App state over `dbBothFail` with a cold cache. -/
def stBothFail : AppState := { cache := [], db := dbBothFail }

/-- `db1` with a fault on the INSERT statement only. -/
def dbInsFail : DB := { db1 with insertFail := true }

/-- App state over `dbInsFail` with a cold cache. -/
def stInsFail : AppState := { cache := [], db := dbInsFail }

/-- C4 counterexample: a driver error raised during the configuration
lookup is NOT propagated — `create` swallows it and succeeds; and an
unclassified driver error (from the INSERT) is answered by the create
endpoint with HTTP 400, not 500. -/
theorem C4_counterexample :
    dbCfgFail.cfgFail = true ∧
    (GenericService.create stCfgFail "students" [("reg_no", Value.str "R9")]).2 =
      .ok [("reg_no", Value.str "R9")] ∧
    (GenericService.create stInsFail "students" [("reg_no", Value.str "R9")]).2 =
      .error (Err.driver "insert failed") ∧
    (GenericController.create stInsFail "students" [("reg_no", Value.str "R9")]).2 = 400 :=
  ⟨rfl, by rfl, by rfl, by rfl⟩

/-- C4 (amended): a driver error raised during the configuration lookup or
uniqueness COUNT queries of `create` is caught and swallowed — the insert
proceeds as if no configuration existed.  A driver error raised by the
INSERT itself does propagate unwrapped, but the HTTP create handler maps
every caught error — unclassified ones included — to status 400. -/
theorem C4_amended_swallowed_and_http400 :
    (∀ (st : AppState) (table : String) (data : Row),
      lookupCache st.cache table = none →
      checkTableExists st.db table = true →
      validateRow (metaOfTable table (catalogColumns st.db table)).columns data =
        .ok () →
      st.db.cfgFail = true → st.db.insertFail = false →
      ∃ st2, GenericService.create st table data = (st2, .ok data) ∧
        rowsOf st2.db table = rowsOf st.db table ++ [data]) ∧
    (∀ (st : AppState) (table : String) (data : Row),
      lookupCache st.cache table = none →
      checkTableExists st.db table = true →
      validateRow (metaOfTable table (catalogColumns st.db table)).columns data =
        .ok () →
      st.db.cfgFail = true → st.db.insertFail = true →
      (GenericService.create st table data).2 = .error (Err.driver "insert failed") ∧
      (GenericController.create st table data).2 = 400) := by
  constructor
  · intro st table data hcache hex hval hcf hins
    unfold GenericService.create
    simp only [hex, Bool.not_true, Bool.false_eq_true, if_false]
    rw [getTableMetadata_miss hcache hex]
    simp only [hval, createUniqueSection_cfgFail table data hcf, hins,
      Bool.false_eq_true, if_false]
    exact ⟨_, rfl, rowsOf_insertRow st.db table data⟩
  · intro st table data hcache hex hval hcf hins
    have hsvc : GenericService.create st table data =
        ({ cache := st.cache ++ [(table, metaOfTable table (catalogColumns st.db table))],
           db := st.db }, .error (Err.driver "insert failed")) := by
      unfold GenericService.create
      simp only [hex, Bool.not_true, Bool.false_eq_true, if_false]
      rw [getTableMetadata_miss hcache hex]
      simp only [hval, createUniqueSection_cfgFail table data hcf, hins, if_true]
    constructor
    · rw [hsvc]
    · unfold GenericController.create
      rw [hsvc]

theorem C4_witness :
    (∃ st2, GenericService.create stCfgFail "students" [("reg_no", Value.str "R9")] =
        (st2, .ok [("reg_no", Value.str "R9")]) ∧
      rowsOf st2.db "students" = rowsOf stCfgFail.db "students" ++ [[("reg_no", Value.str "R9")]]) ∧
    (GenericService.create stBothFail "students" [("reg_no", Value.str "R9")]).2 =
      .error (Err.driver "insert failed") ∧
    (GenericController.create stBothFail "students" [("reg_no", Value.str "R9")]).2 = 400 :=
  ⟨C4_amended_swallowed_and_http400.1 stCfgFail "students" [("reg_no", Value.str "R9")]
      (by rfl) (by rfl) (by rfl) (by rfl) (by rfl),
   C4_amended_swallowed_and_http400.2 stBothFail "students" [("reg_no", Value.str "R9")]
      (by rfl) (by rfl) (by rfl) (by rfl) (by rfl)⟩

/-! ## Uniqueness enforcement (C1) -/

lemma get_ok (st : AppState) (table : String) (id : Value)
    (hex : checkTableExists st.db table = true)
    (m : TableMeta) (hhit : lookupCache st.cache table = some m) :
    ∃ res, (GenericService.get st table id).2 = .ok res := by
  unfold GenericService.get
  simp only [hex, Bool.not_true, Bool.false_eq_true, if_false]
  rw [getTableMetadata_hit hhit]
  exact ⟨_, rfl⟩

lemma checkUniqueCreate_err (db : DB) (t : String) (ucs : List String)
    (data : Row) (c : String) (v : Value)
    (hc : c ∈ ucs) (hv : lookupRow data c = some v) (hvn : v ≠ Value.null)
    (hdup : 0 < (rowsOf db t).countP (fun r => sqlEq (rowVal r c) v)) :
    ∃ msg, checkUniqueCreate db t ucs data = .error (Err.conflict msg) := by
  induction ucs with
  | nil => simp at hc
  | cons c0 rest ih =>
    unfold checkUniqueCreate
    rcases List.mem_cons.mp hc with heq | hmem
    · subst heq
      have hvn' : (v != Value.null) = true := by simpa using hvn
      rw [hv]
      simp only [hvn', if_true]
      rw [if_pos hdup]
      exact ⟨_, rfl⟩
    · cases hl : lookupRow data c0 with
      | none =>
        simp only [hl]
        exact ih hmem
      | some v0 =>
        by_cases hv0 : (v0 != Value.null) = true
        · by_cases hcnt : (rowsOf db t).countP (fun r => sqlEq (rowVal r c0) v0) > 0
          · simp only [hl, hv0, if_true]
            rw [if_pos hcnt]
            exact ⟨_, rfl⟩
          · simp only [hl, hv0, if_true]
            rw [if_neg hcnt]
            exact ih hmem
        · have hv0' : (v0 != Value.null) = false := by simpa using hv0
          simp only [hl, hv0', Bool.false_eq_true, if_false]
          exact ih hmem

lemma checkUniqueUpdate_ok (db : DB) (t : String) (pk : String) (id : Value)
    (ucs : List String) (data : Row)
    (h : ∀ c ∈ ucs, ∀ r ∈ rowsOf db t,
      sqlEq (rowVal r c) ((lookupRow data c).getD Value.null) = false ∨
      sqlNe (rowVal r pk) id = false) :
    checkUniqueUpdate db t pk id ucs data = .ok () := by
  induction ucs with
  | nil => rfl
  | cons c0 rest ih =>
    unfold checkUniqueUpdate
    have hrest := ih (fun c2 hc2 r hr => h c2 (List.mem_cons_of_mem _ hc2) r hr)
    cases hl : lookupRow data c0 with
    | none =>
      simp only [hl]
      exact hrest
    | some v0 =>
      by_cases hv0 : (v0 != Value.null) = true
      · have hcnt : (rowsOf db t).countP
            (fun r => sqlEq (rowVal r c0) v0 && sqlNe (rowVal r pk) id) = 0 := by
          rw [List.countP_eq_zero]
          intro r hr
          rcases h c0 (List.mem_cons_self _ _) r hr with h1 | h2
          · rw [hl] at h1
            simp only [Option.getD_some] at h1
            simp [h1]
          · simp [h2]
        simp [hl, hv0, hcnt, hrest]
      · have hv0' : (v0 != Value.null) = false := by simpa using hv0
        simp [hl, hv0', hrest]

/-- C1: On a table whose non-deleted configuration names column c among the
unique constraints: `create` with a non-null value for c that some existing
row already holds fails with a Conflict error; `update` of the row
identified by id to values that collide with no row OTHER than the one
being updated (in particular, to its own stored value) does not fail,
because the update-side COUNT predicate adds `primaryKey != id`. -/
theorem C1_unique_create_conflicts_update_self_ok
    (st : AppState) (table : String) (data : Row) (id : Value)
    (c : String) (v : Value) (ucs : List String)
    (hcache : lookupCache st.cache table = none)
    (hex : checkTableExists st.db table = true)
    (hfail : st.db.cfgFail = false)
    (hucs : (getConfig st.db table).bind (fun r => r.unique_constraints) = some ucs)
    (hc : c ∈ ucs)
    (hv : lookupRow data c = some v) (hvn : v ≠ Value.null)
    (hval : validateRow (metaOfTable table (catalogColumns st.db table)).columns data =
      .ok ())
    (hdup : ∃ r ∈ rowsOf st.db table, sqlEq (rowVal r c) v = true)
    (_hself : ∃ r ∈ rowsOf st.db table,
      sqlEq (rowVal r (metaOfTable table (catalogColumns st.db table)).primaryKey) id = true ∧
      rowVal r c = v)
    (hnoother : ∀ c2 ∈ ucs, ∀ r ∈ rowsOf st.db table,
      sqlEq (rowVal r c2) ((lookupRow data c2).getD Value.null) = false ∨
      sqlNe (rowVal r (metaOfTable table (catalogColumns st.db table)).primaryKey) id = false) :
    (∃ msg, (GenericService.create st table data).2 = .error (Err.conflict msg)) ∧
    (∃ res, (GenericService.update st table id data).2 = .ok res) := by
  have hucs' : (st.db.configs.find?
      (fun cr => cr.table_name == table && cr.deleted_at == none)).bind
      (fun cr => cr.unique_constraints) = some ucs := hucs
  constructor
  · have hcnt : 0 < (rowsOf st.db table).countP (fun r => sqlEq (rowVal r c) v) := by
      rcases hdup with ⟨r, hr, hpr⟩
      exact List.countP_pos_iff.mpr ⟨r, hr, hpr⟩
    rcases checkUniqueCreate_err st.db table ucs data c v hc hv hvn hcnt with ⟨msg, hchk⟩
    have hsec : createUniqueSection st.db table data = .error (Err.conflict msg) := by
      unfold createUniqueSection createUniqueTry getUniqueConstraintsE
      rw [hfail]
      simp only [Bool.false_eq_true, if_false, hucs', hchk, Err.isConflict, if_true]
    unfold GenericService.create
    simp only [hex, Bool.not_true, Bool.false_eq_true, if_false]
    rw [getTableMetadata_miss hcache hex]
    simp only [hval, hsec]
    exact ⟨msg, rfl⟩
  · have hupd : updateUniqueSection st.db table
        (metaOfTable table (catalogColumns st.db table)).primaryKey id data = .ok () := by
      unfold updateUniqueSection updateUniqueTry getUniqueConstraintsE
      rw [hfail]
      simp only [Bool.false_eq_true, if_false, hucs',
        checkUniqueUpdate_ok st.db table _ id ucs data hnoother]
    unfold GenericService.update
    simp only [hex, Bool.not_true, Bool.false_eq_true, if_false]
    rw [getTableMetadata_miss hcache hex]
    simp only [hupd]
    exact get_ok _ table id hex (metaOfTable table (catalogColumns st.db table))
      (lookupCache_append_self hcache)

theorem C1_witness :
    (∃ msg, (GenericService.create st1 "students" [("reg_no", Value.str "R1")]).2 =
      .error (Err.conflict msg)) ∧
    (∃ res, (GenericService.update st1 "students" (Value.int 1)
      [("reg_no", Value.str "R1")]).2 = .ok res) :=
  C1_unique_create_conflicts_update_self_ok st1 "students"
    [("reg_no", Value.str "R1")] (Value.int 1) "reg_no" (Value.str "R1") ["reg_no"]
    (by rfl) (by rfl) (by rfl) (by rfl) (by decide) (by rfl) (by decide) (by rfl)
    (by decide) (by decide) (by decide)
